import Mathlib

/-
  Verification of the Portal playback controller of the `boda` repository
  (src/pages/Portal.tsx, with MusicProvider.tsx as the music collaborator).

  The controller is a React component.  Its state is the `phase` value
  (`"idle" | "video" | "ready" | "leaving"`), a mutable reference to the
  HTML video element, and the browser timers it creates.  We embed it as an
  explicit event-loop semantics: a `World` record holds the component state
  together with the scheduled timers and the counters of the externally
  observable side effects (music starts, navigations), and an `Act` step
  function executes one event-loop turn (a user tap on a rendered hit
  region, the settling of an awaited promise, a timer callback, the video
  `ended` event, passage of time, or teardown of the view).

  Every handler definition below is transcribed from the source; comments
  cite the corresponding lines of src/pages/Portal.tsx.  Purely visual
  effects (CSS, framer-motion fades, the first-frame freeze effect and the
  `videoReady` loading shade, muted/playsInline flags) do not interact with
  the claims and are omitted from the state.
-/

namespace Portal

/-- Transcribes `type Phase = "idle" | "video" | "ready" | "leaving"` (Portal.tsx line 7).
The spec names these Idle, Playing, Ready, Leaving. -/
inductive Phase where
  | idle
  | video
  | ready
  | leaving
deriving DecidableEq, Repr

/-- A JavaScript number as it is used for `video.duration` / `currentTime`:
either a finite value, `NaN` (the duration before metadata is known) or
`Infinity` (unbounded streams).  Finite values are modelled in exact
arithmetic, in units of 1/100 second, so `fin k` stands for the number
`k / 100` (seconds); the source's only non-integral constant, `0.04`, is
exactly `4` in this unit, and the program only ever subtracts that
constant, clamps at `0` and compares with `0`, all of which this unit
represents exactly.  IEEE-754 rounding is abstracted away. -/
inductive JSNum where
  | nan
  | inf
  | fin (k : ℤ)
deriving DecidableEq, Repr

namespace JSNum

/-- JavaScript `x || 0`: `NaN` and `0` are falsy and give `0`. -/
def orZero : JSNum → JSNum
  | .nan => .fin 0
  | .inf => .inf
  | .fin k => .fin k

/-- JavaScript subtraction of a finite constant: `NaN - c = NaN`,
`Infinity - c = Infinity`. -/
def subC (x : JSNum) (c : ℤ) : JSNum :=
  match x with
  | .nan => .nan
  | .inf => .inf
  | .fin k => .fin (k - c)

/-- JavaScript `Math.max(0, x)`: `Math.max(0, NaN) = NaN`. -/
def max0 : JSNum → JSNum
  | .nan => .nan
  | .inf => .inf
  | .fin k => .fin (if k < 0 then 0 else k)

/-- JavaScript `Number.isFinite`. -/
def isFinite : JSNum → Bool
  | .fin _ => true
  | _ => false

/-- JavaScript `x > 0` (false for `NaN`, true for `Infinity`). -/
def isPos : JSNum → Bool
  | .nan => false
  | .inf => true
  | .fin k => decide (0 < k)

end JSNum

/-- The state of the HTML video element that the claims observe: its
`duration`, its `currentTime`, and whether it is currently playing
(between a successful `play()` and the next `pause()`/end). -/
structure VideoEl where
  duration : JSNum
  currentTime : JSNum
  playing : Bool
deriving DecidableEq, Repr

/-- Source constant `NAV_DELAY_MS = 650` (Portal.tsx line 22). -/
def NAV_DELAY_MS : ℕ := 650

/-- Source constant `EXIT_FADE_MS = 850` (Portal.tsx line 21). -/
def EXIT_FADE_MS : ℕ := 850

/-- The fixed retry backoff of the `window.setTimeout(..., 120)` in
`startVideo`'s catch handler (Portal.tsx line 157). -/
def RETRY_DELAY_MS : ℕ := 120

/-- Duration of the exit animation of the final hit button: the
`motion.button` is wrapped in `AnimatePresence` with
`exit={{ opacity: 0 }}` and `transition={{ duration: 0.25, ... }}`
(Portal.tsx lines 256-270), i.e. 250 ms during which the button is still
in the DOM after the ready render was left. -/
def EXIT_HIT_FADE_MS : ℕ := 250

/-- The source's seek epsilon `0.04` seconds, i.e. `4` in the 1/100 s
unit of `JSNum.fin` (Portal.tsx line 172). -/
def SEEK_EPS : ℤ := 4

/-- Transcribes `const safeEnd = Math.max(0, (v.duration || 0) - 0.04)`
(Portal.tsx line 172). -/
def safeEnd (duration : JSNum) : JSNum :=
  (duration.orZero.subC SEEK_EPS).max0

/-- The whole world the controller lives in: component state, video element
reference, pending asynchronous work, browser timers (stored as the `now`
at which they were scheduled; a timer with schedule time `t` and delay `d`
may fire once `t + d ≤ now`), and counters of the observable side effects.
`pendingStarts` counts invocations of `startVideo` that have passed the
idle guard and are suspended on `await music.start()`;
`rafPending` counts scheduled `requestAnimationFrame` callbacks.
`exitFadeUntil` records, while `some u`, that the final hit button is
still in the DOM running its `AnimatePresence` exit fade until time `u`:
during that window it is still clickable (the `fadeElegant` overlay above
it is `pointer-events:none`, Portal.tsx line 361) and its `onClick`
closure still holds the `phase = "ready"` value captured at the render in
which it was last visible. -/
structure World where
  phase : Phase
  video : Option VideoEl
  mounted : Bool
  pendingStarts : ℕ
  rafPending : ℕ
  retryTimers : List ℕ
  navTimers : List ℕ
  navCount : ℕ
  musicCalls : ℕ
  now : ℕ
  exitFadeUntil : Option ℕ
deriving DecidableEq, Repr

/-- The first, synchronous half of `startVideo` (Portal.tsx lines 128-133):
`if (phase !== "idle") return;` then `music.start()` is invoked (the call
happens immediately; the function then suspends on `await`).  The guard is
checked before the call, so in any non-idle phase the whole function is a
no-op. -/
def startVideoBegin (w : World) : World :=
  if w.phase = .idle then
    { w with musicCalls := w.musicCalls + 1, pendingStarts := w.pendingStarts + 1 }
  else w

/-- The continuation of `startVideo` after `await music.start()` settles
(Portal.tsx lines 134-140): the outcome, fulfilment or rejection, is
swallowed by the empty catch; then `setPhase("video")` and
`requestAnimationFrame(...)` run, with no re-check of the phase.  If the
component has been unmounted in the meantime, React drops the state
update, but the animation-frame callback is still scheduled (it will find
a null ref and return). -/
def startVideoResume (w : World) : World :=
  if w.mounted then
    { w with pendingStarts := w.pendingStarts - 1, phase := .video,
             rafPending := w.rafPending + 1 }
  else
    { w with pendingStarts := w.pendingStarts - 1, rafPending := w.rafPending + 1 }

/-- The `requestAnimationFrame` callback of `startVideo` (Portal.tsx lines
140-159): `const v = videoRef.current; if (!v) return;` then
`v.currentTime = 0;` and `await v.play()`.  On rejection the catch
schedules the single retry: `window.setTimeout(..., 120)`.  `ok` is the
outcome of the `play()` call. -/
def rafPlayback (ok : Bool) (w : World) : World :=
  let w1 := { w with rafPending := w.rafPending - 1 }
  match w1.video with
  | none => w1
  | some v =>
    let v1 := { v with currentTime := .fin 0 }
    if ok then { w1 with video := some { v1 with playing := true } }
    else { w1 with video := some v1, retryTimers := w1.now :: w1.retryTimers }

/-- The retry callback (Portal.tsx lines 151-157):
`await videoRef.current?.play()` with the rejection swallowed
(`catch { // ignore }`).  `t` is the schedule time of the fired timer,
`ok` the outcome of the retried `play()`. -/
def retryPlayback (t : ℕ) (ok : Bool) (w : World) : World :=
  let w1 := { w with retryTimers := w.retryTimers.erase t }
  match w1.video with
  | none => w1
  | some v => if ok then { w1 with video := some { v with playing := true } } else w1

/-- The tap handler of the `phase === "video"` overlay (Portal.tsx lines
244-253): `videoRef.current?.play().catch(() => {})`. -/
def tapRetryPlayback (ok : Bool) (w : World) : World :=
  match w.video with
  | none => w
  | some v => if ok then { w with video := some { v with playing := true } } else w

/-- Transcribes `onVideoEnded` (Portal.tsx lines 162-179).  If the ref is null the
handler still advances to ready.  Otherwise it pauses, computes
`safeEnd = Math.max(0, (v.duration || 0) - 0.04)`, seeks there when
`Number.isFinite(safeEnd) && safeEnd > 0`, and advances to ready.  Note:
there is no phase precondition in the source. -/
def onVideoEnded (w : World) : World :=
  match w.video with
  | none => { w with phase := .ready }
  | some v =>
    let se := safeEnd v.duration
    let v1 := { v with playing := false }
    let v2 := if se.isFinite && se.isPos then { v1 with currentTime := se } else v1
    { w with video := some v2, phase := .ready }

/-- Transcribes the body of `goInvite` (Portal.tsx lines 181-192) as
executed by a handler closure that captured `phase = p` at render time.
The only guard is `if (phase === "leaving") return;`, and `phase` there is
the render-scoped const of the closure — `setPhase` never mutates it, so
the guard compares the captured value `p`, not the current state.  When
the guard passes, the handler sets the phase to leaving, pauses the
video, and schedules
`window.setTimeout(() => navigate("/invite"), NAV_DELAY_MS)`. -/
def goInviteBody (p : Phase) (w : World) : World :=
  if p = .leaving then w
  else
    { w with phase := .leaving,
             video := w.video.map (fun v => { v with playing := false }),
             navTimers := w.now :: w.navTimers }

/-- `goInvite` as invoked from the live ready render: the final hit
button is rendered only while `showFinalHit` (phase ready), and its fresh
closure captured the current phase, so the guard reads the current
phase. -/
def goInvite (w : World) : World := goInviteBody w.phase w

/-- `goInvite` as invoked from the stale exit button during its
`AnimatePresence` exit fade: the button was last rendered while the phase
was ready, so its retained `onClick` closure captured `phase = "ready"`
and the guard passes again whatever the current phase is — an immediate
second exit tap therefore schedules a second navigation timeout. -/
def goInviteStale (w : World) : World := goInviteBody .ready w

/-- The navigation timeout callback, `() => navigate("/invite")`
(Portal.tsx line 191).  The timeout id is never stored and never cleared,
and the callback runs unconditionally: nothing checks whether the
component is still mounted. -/
def navTimerFire (t : ℕ) (w : World) : World :=
  { w with navTimers := w.navTimers.erase t, navCount := w.navCount + 1 }

/-- Teardown of the view: React clears the element ref and removes the
`onEnded` listener with the element, but no `clearTimeout` exists anywhere
in the component, so both timer lists survive. -/
def unmountView (w : World) : World :=
  { w with mounted := false, video := none }

/-- One event-loop turn. -/
inductive Act where
  /-- user tap on the entry hit region (rendered only while idle) -/
  | tapEntry
  /-- the `await music.start()` promise settles with outcome `ok`;
      the suspended `startVideo` resumes -/
  | musicSettled (ok : Bool)
  /-- a scheduled `requestAnimationFrame` callback runs; `ok` is the
      outcome of the `play()` it issues -/
  | rafFire (ok : Bool)
  /-- the 120 ms retry timeout scheduled at time `t` fires -/
  | retryFire (t : ℕ) (ok : Bool)
  /-- user tap on the `phase === "video"` overlay -/
  | tapRetry (ok : Bool)
  /-- the video element fires `ended` -/
  | videoEnded
  /-- user tap on the final hit region (rendered only while ready) -/
  | tapExit
  /-- user tap on the final hit button while its `AnimatePresence` exit
      fade is still running: the button is still in the DOM for
      `EXIT_HIT_FADE_MS` after the ready render was left, above the
      `pointer-events:none` fade overlay, and its `onClick` runs
      `goInvite` with the stale captured `phase = "ready"` -/
  | tapExitStale
  /-- the 650 ms navigation timeout scheduled at time `t` fires -/
  | navFire (t : ℕ)
  /-- time passes: `dt` milliseconds elapse -/
  | elapse (dt : ℕ)
  /-- the owning view unmounts -/
  | unmount
deriving DecidableEq, Repr

/-- Which events the browser can deliver in a given world.  Taps require
the corresponding hit region to be rendered (the JSX conditionals of
Portal.tsx lines 233, 244, 257: entry iff idle, overlay iff video, final
iff ready) and the view mounted; `ended` requires a playing video element;
promise continuations and animation frames require pending work; a timer
can fire only after its delay has elapsed, and — faithfully to the source,
which never cancels them — regardless of whether the view is still
mounted. -/
def enabledB (w : World) : Act → Bool
  | .tapEntry => w.mounted && w.phase == .idle
  | .musicSettled _ => decide (0 < w.pendingStarts)
  | .rafFire _ => decide (0 < w.rafPending)
  | .retryFire t _ => decide (t ∈ w.retryTimers) && decide (t + RETRY_DELAY_MS ≤ w.now)
  | .tapRetry _ => w.mounted && w.phase == .video
  | .videoEnded =>
      w.mounted && (match w.video with
                    | some v => v.playing
                    | none => false)
  | .tapExit => w.mounted && w.phase == .ready
  | .tapExitStale =>
      w.mounted && (match w.exitFadeUntil with
                    | some u => decide (w.now ≤ u)
                    | none => false)
  | .navFire t => decide (t ∈ w.navTimers) && decide (t + NAV_DELAY_MS ≤ w.now)
  | .elapse _ => true
  | .unmount => w.mounted

/-- Execute one event.  A fresh exit tap additionally opens the
`AnimatePresence` fade window: leaving the ready render starts the final
hit button's `EXIT_HIT_FADE_MS` exit animation, during which the stale
button remains clickable. -/
def step (w : World) : Act → World
  | .tapEntry => startVideoBegin w
  | .musicSettled _ => startVideoResume w
  | .rafFire ok => rafPlayback ok w
  | .retryFire t ok => retryPlayback t ok w
  | .tapRetry ok => tapRetryPlayback ok w
  | .videoEnded => onVideoEnded w
  | .tapExit =>
      let w1 := goInvite w
      if w.phase = .ready then { w1 with exitFadeUntil := some (w.now + EXIT_HIT_FADE_MS) }
      else w1
  | .tapExitStale => goInviteStale w
  | .navFire t => navTimerFire t w
  | .elapse dt => { w with now := w.now + dt }
  | .unmount => unmountView w

/-- A legal trace: every event is enabled when it occurs. -/
def legal (w : World) : List Act → Bool
  | [] => true
  | a :: as => enabledB w a && legal (step w a) as

/-- The extra delivery discipline under which the spec's temporal claims
hold: (i) the asset's `ended` event is delivered only while the controller
is in the video (Playing) phase — true whenever the asset cannot play to
its end inside the retry-backoff window after the phase has moved on;
(ii) no suspended `startVideo` continuation resumes after the controller
has already reached ready or leaving — true whenever `music.start()`
settles before the video finishes; and (iii) a stale exit tap lands only
while the phase is leaving.  Condition (iii) excludes nothing beyond (i)
and (ii): the fade window only opens on the ready → leaving transition
and under (i) and (ii) every later delivery keeps the phase at leaving
(a fade window coexisting with another phase needs the abnormal resume
that (ii) already rules out); it is stated per event so that the
transition lemmas stay per-step.  Stale exit taps themselves are NOT
excluded: a double tap is a perfectly normal delivery. -/
def normalAct (w : World) : Act → Bool
  | .videoEnded => w.phase == .video
  | .musicSettled _ => !(w.phase == .ready) && !(w.phase == .leaving)
  | .tapExitStale => w.phase == .leaving
  | _ => true

/-- A normal trace: legal, and respecting `normalAct`. -/
def legalN (w : World) : List Act → Bool
  | [] => true
  | a :: as => enabledB w a && normalAct w a && legalN (step w a) as

/-- Run a trace. -/
def run (w : World) : List Act → World
  | [] => w
  | a :: as => run (step w a) as

/-- The freshly mounted world: phase idle, a video element present with
duration `d` (NaN until metadata arrives), nothing scheduled, no side
effect performed yet. -/
def initWorld (d : JSNum) : World :=
  { phase := .idle
    video := some { duration := d, currentTime := .fin 0, playing := false }
    mounted := true
    pendingStarts := 0
    rafPending := 0
    retryTimers := []
    navTimers := []
    navCount := 0
    musicCalls := 0
    now := 0
    exitFadeUntil := none }

/-- The clickable hit regions of the portal view. -/
inductive Region where
  | entry
  | retryOverlay
  | exitHit
deriving DecidableEq, Repr

/-- Source derived flag `showFinalHit = phase === "ready"` (Portal.tsx line 195). -/
def showFinalHit (p : Phase) : Bool := p == .ready

/-- The set of active hit regions, read off the render conditionals of
Portal.tsx: `{phase === "idle" && <button className="hit" ...>}` (line
233), `{phase === "video" && <button className="tapToPlay" ...>}` (line
244), `{showFinalHit && <motion.button className="hitFinal" ...>}`
(line 257). -/
def activeRegions (p : Phase) : List Region :=
  (if p == .idle then [Region.entry] else [])
    ++ (if p == .video then [Region.retryOverlay] else [])
    ++ (if showFinalHit p then [Region.exitHit] else [])

/-- Position of a phase along the spec's chain Idle → Playing → Ready →
Leaving. -/
def rank : Phase → ℕ
  | .idle => 0
  | .video => 1
  | .ready => 2
  | .leaving => 3

/-- Navigation bookkeeping invariant: before the leaving phase no
navigation has been performed or scheduled. -/
def QNav (w : World) : Prop :=
  w.phase ≠ .leaving → w.navCount = 0 ∧ w.navTimers = []

/-- Performed plus pending navigations. -/
def navBound (w : World) : ℕ := w.navCount + w.navTimers.length

/-- Recognizer for the stale exit tap event. -/
def isStaleTap : Act → Bool
  | .tapExitStale => true
  | _ => false

/-- The primitive effects performed by one invocation of `startVideo`, in
program order, used to reason about what is known when the phase
transition happens. -/
inductive PEvent where
  /-- the call `music.start()` is issued (Portal.tsx line 133) -/
  | musicStartCall
  /-- the awaited `music.start()` promise settles; its outcome `ok` is
      now known (and swallowed by the catch, lines 132-136) -/
  | musicOutcome (ok : Bool)
  /-- the transition `setPhase("video")` runs (line 138) -/
  | setPhasePlaying
  /-- the call `requestAnimationFrame(...)` schedules the playback callback
      (line 140) -/
  | rafSched
  /-- the call `v.play()` is issued inside the animation-frame callback
      (line 149) -/
  | playCall
  /-- the `play()` promise settles with outcome `ok` -/
  | playOutcome (ok : Bool)
  /-- the retry `window.setTimeout(..., ms)` is scheduled (line 151) -/
  | retrySched (ms : ℕ)
  /-- the retried `videoRef.current?.play()` is invoked (line 153) -/
  | retryPlayCall
  /-- the retried `play()` settles with outcome `ok`; a rejection is
      swallowed (lines 154-156) -/
  | retryOutcome (ok : Bool)
deriving DecidableEq, Repr

/-- The effect timeline of one `startVideo` invocation from the idle
phase (Portal.tsx lines 128-159), as a function of the three
asynchronous outcomes: `musicOk` for `music.start()`, `firstOk` for the
first `v.play()`, `retryOk` for the retried one.  The timeline shape does
not depend on `musicOk` (the outcome is discarded), and the retry tail
exists only when the first `play()` rejects. -/
def startVideoTimeline (musicOk firstOk retryOk : Bool) : List PEvent :=
  [.musicStartCall, .musicOutcome musicOk, .setPhasePlaying, .rafSched,
   .playCall, .playOutcome firstOk]
    ++ (if firstOk then []
        else [.retrySched RETRY_DELAY_MS, .retryPlayCall, .retryOutcome retryOk])

/-- Recognizer for the settling of `music.start()`. -/
def PEvent.isMusicOutcome : PEvent → Bool
  | .musicOutcome _ => true
  | _ => false

/-- Recognizer for `setPhase("video")`. -/
def PEvent.isSetPhasePlaying : PEvent → Bool
  | .setPhasePlaying => true
  | _ => false

/-- Recognizer for the first `play()` call. -/
def PEvent.isPlayCall : PEvent → Bool
  | .playCall => true
  | _ => false

/-- Recognizer for the scheduling of the retry backoff timer. -/
def PEvent.isRetrySched : PEvent → Bool
  | .retrySched _ => true
  | _ => false

/-- Recognizer for any `play()` attempt (first or retried). -/
def PEvent.isPlayAttempt : PEvent → Bool
  | .playCall => true
  | .retryPlayCall => true
  | _ => false

section Helpers

@[simp] theorem rafPlayback_phase (ok : Bool) (w : World) :
    (rafPlayback ok w).phase = w.phase := by
  unfold rafPlayback; cases hv : w.video <;> cases ok <;> simp [hv]

@[simp] theorem rafPlayback_navCount (ok : Bool) (w : World) :
    (rafPlayback ok w).navCount = w.navCount := by
  unfold rafPlayback; cases hv : w.video <;> cases ok <;> simp [hv]

@[simp] theorem rafPlayback_navTimers (ok : Bool) (w : World) :
    (rafPlayback ok w).navTimers = w.navTimers := by
  unfold rafPlayback; cases hv : w.video <;> cases ok <;> simp [hv]

@[simp] theorem rafPlayback_musicCalls (ok : Bool) (w : World) :
    (rafPlayback ok w).musicCalls = w.musicCalls := by
  unfold rafPlayback; cases hv : w.video <;> cases ok <;> simp [hv]

@[simp] theorem retryPlayback_phase (t : ℕ) (ok : Bool) (w : World) :
    (retryPlayback t ok w).phase = w.phase := by
  unfold retryPlayback; cases hv : w.video <;> cases ok <;> simp [hv]

@[simp] theorem retryPlayback_navCount (t : ℕ) (ok : Bool) (w : World) :
    (retryPlayback t ok w).navCount = w.navCount := by
  unfold retryPlayback; cases hv : w.video <;> cases ok <;> simp [hv]

@[simp] theorem retryPlayback_navTimers (t : ℕ) (ok : Bool) (w : World) :
    (retryPlayback t ok w).navTimers = w.navTimers := by
  unfold retryPlayback; cases hv : w.video <;> cases ok <;> simp [hv]

@[simp] theorem retryPlayback_musicCalls (t : ℕ) (ok : Bool) (w : World) :
    (retryPlayback t ok w).musicCalls = w.musicCalls := by
  unfold retryPlayback; cases hv : w.video <;> cases ok <;> simp [hv]

@[simp] theorem tapRetryPlayback_phase (ok : Bool) (w : World) :
    (tapRetryPlayback ok w).phase = w.phase := by
  unfold tapRetryPlayback; cases hv : w.video <;> cases ok <;> simp [hv]

@[simp] theorem tapRetryPlayback_navCount (ok : Bool) (w : World) :
    (tapRetryPlayback ok w).navCount = w.navCount := by
  unfold tapRetryPlayback; cases hv : w.video <;> cases ok <;> simp [hv]

@[simp] theorem tapRetryPlayback_navTimers (ok : Bool) (w : World) :
    (tapRetryPlayback ok w).navTimers = w.navTimers := by
  unfold tapRetryPlayback; cases hv : w.video <;> cases ok <;> simp [hv]

@[simp] theorem tapRetryPlayback_musicCalls (ok : Bool) (w : World) :
    (tapRetryPlayback ok w).musicCalls = w.musicCalls := by
  unfold tapRetryPlayback; cases hv : w.video <;> cases ok <;> simp [hv]

@[simp] theorem onVideoEnded_phase (w : World) :
    (onVideoEnded w).phase = .ready := by
  unfold onVideoEnded; cases hv : w.video <;> simp [hv]

@[simp] theorem onVideoEnded_navCount (w : World) :
    (onVideoEnded w).navCount = w.navCount := by
  unfold onVideoEnded; cases hv : w.video <;> simp [hv]

@[simp] theorem onVideoEnded_navTimers (w : World) :
    (onVideoEnded w).navTimers = w.navTimers := by
  unfold onVideoEnded; cases hv : w.video <;> simp [hv]

@[simp] theorem onVideoEnded_musicCalls (w : World) :
    (onVideoEnded w).musicCalls = w.musicCalls := by
  unfold onVideoEnded; cases hv : w.video <;> simp [hv]

@[simp] theorem startVideoBegin_phase (w : World) :
    (startVideoBegin w).phase = w.phase := by
  unfold startVideoBegin; split <;> simp

@[simp] theorem startVideoBegin_navCount (w : World) :
    (startVideoBegin w).navCount = w.navCount := by
  unfold startVideoBegin; split <;> simp

@[simp] theorem startVideoBegin_navTimers (w : World) :
    (startVideoBegin w).navTimers = w.navTimers := by
  unfold startVideoBegin; split <;> simp

@[simp] theorem startVideoResume_navCount (w : World) :
    (startVideoResume w).navCount = w.navCount := by
  unfold startVideoResume; split <;> simp

@[simp] theorem startVideoResume_navTimers (w : World) :
    (startVideoResume w).navTimers = w.navTimers := by
  unfold startVideoResume; split <;> simp

@[simp] theorem startVideoResume_musicCalls (w : World) :
    (startVideoResume w).musicCalls = w.musicCalls := by
  unfold startVideoResume; split <;> simp

@[simp] theorem goInvite_musicCalls (w : World) :
    (goInvite w).musicCalls = w.musicCalls := by
  unfold goInvite goInviteBody; split <;> simp

@[simp] theorem goInviteStale_musicCalls (w : World) :
    (goInviteStale w).musicCalls = w.musicCalls := by
  unfold goInviteStale goInviteBody; simp

@[simp] theorem goInviteStale_phase (w : World) :
    (goInviteStale w).phase = .leaving := by
  unfold goInviteStale goInviteBody; simp

@[simp] theorem goInviteStale_navTimers (w : World) :
    (goInviteStale w).navTimers = w.now :: w.navTimers := by
  unfold goInviteStale goInviteBody; simp

@[simp] theorem goInviteStale_navCount (w : World) :
    (goInviteStale w).navCount = w.navCount := by
  unfold goInviteStale goInviteBody; simp

@[simp] theorem goInvite_navCount (w : World) :
    (goInvite w).navCount = w.navCount := by
  unfold goInvite goInviteBody; split <;> simp

@[simp] theorem goInvite_phase (w : World) : (goInvite w).phase = .leaving := by
  unfold goInvite goInviteBody
  split
  · assumption
  · simp

@[simp] theorem step_tapExit_navCount (w : World) :
    (step w .tapExit).navCount = w.navCount := by
  simp only [step]; split <;> simp

@[simp] theorem step_tapExit_navTimers (w : World) :
    (step w .tapExit).navTimers = (goInvite w).navTimers := by
  simp only [step]; split <;> simp

@[simp] theorem step_tapExit_phase (w : World) :
    (step w .tapExit).phase = .leaving := by
  simp only [step]; split <;> simp

/-- Transport of the pre-leaving navigation invariant along a step that
leaves the phase and the navigation bookkeeping untouched. -/
theorem qnav_of_untouched {w w' : World} (hI : QNav w)
    (hp : w'.phase = w.phase) (hc : w'.navCount = w.navCount)
    (ht : w'.navTimers = w.navTimers) : QNav w' := by
  intro h; rw [hp] at h; rw [hc, ht]; exact hI h

/-- The pre-leaving navigation invariant is preserved by every normally
delivered enabled event (stale exit taps included: they end in
leaving). -/
theorem qnav_step (w : World) (a : Act) (hI : QNav w)
    (he : enabledB w a = true) (hn : normalAct w a = true) :
    QNav (step w a) := by
  cases a with
  | tapEntry => exact qnav_of_untouched hI (by simp [step]) (by simp [step]) (by simp [step])
  | musicSettled ok =>
      have hnr : w.phase ≠ .leaving := by
        simp [normalAct, Bool.and_eq_true] at hn
        intro h; exact hn.2 (by simp [h])
      simp only [step, startVideoResume]
      split
      · exact fun _ => hI hnr
      · exact fun h => hI (by simpa using h)
  | rafFire ok => exact qnav_of_untouched hI (by simp [step]) (by simp [step]) (by simp [step])
  | retryFire t ok => exact qnav_of_untouched hI (by simp [step]) (by simp [step]) (by simp [step])
  | tapRetry ok => exact qnav_of_untouched hI (by simp [step]) (by simp [step]) (by simp [step])
  | videoEnded =>
      have hnr : w.phase ≠ .leaving := by
        simp [normalAct] at hn
        simp [hn]
      obtain ⟨hc, ht⟩ := hI hnr
      intro _
      simp [step, hc, ht]
  | tapExit =>
      have hr : w.phase = .ready := by
        simp [enabledB, Bool.and_eq_true] at he
        exact he.2
      intro h
      exact absurd (by simp [step, goInvite, goInviteBody, hr]) h
  | tapExitStale =>
      intro h
      exact absurd (by simp [step]) h
  | navFire t =>
      have hmem : t ∈ w.navTimers := by
        simp [enabledB, Bool.and_eq_true] at he
        exact he.1
      intro h
      have hne : w.phase ≠ .leaving := by simpa [step, navTimerFire] using h
      have := (hI hne).2
      simp [this] at hmem
  | elapse dt => exact qnav_of_untouched hI rfl rfl rfl
  | unmount => exact qnav_of_untouched hI rfl rfl rfl

/-- One normally delivered enabled step raises the performed-plus-pending
navigation bound by at most one, and only a stale exit tap can raise it
past one. -/
theorem navBound_step_le (w : World) (a : Act) (hI : QNav w)
    (he : enabledB w a = true) (hn : normalAct w a = true) :
    navBound (step w a) ≤ max 1 (navBound w) + (if isStaleTap a then 1 else 0) := by
  cases a with
  | tapEntry =>
      have h : navBound (step w .tapEntry) = navBound w := by simp [navBound, step]
      rw [h]; show navBound w ≤ max 1 (navBound w) + 0; omega
  | musicSettled ok =>
      have h : navBound (step w (.musicSettled ok)) = navBound w := by simp [navBound, step]
      rw [h]; show navBound w ≤ max 1 (navBound w) + 0; omega
  | rafFire ok =>
      have h : navBound (step w (.rafFire ok)) = navBound w := by simp [navBound, step]
      rw [h]; show navBound w ≤ max 1 (navBound w) + 0; omega
  | retryFire t ok =>
      have h : navBound (step w (.retryFire t ok)) = navBound w := by simp [navBound, step]
      rw [h]; show navBound w ≤ max 1 (navBound w) + 0; omega
  | tapRetry ok =>
      have h : navBound (step w (.tapRetry ok)) = navBound w := by simp [navBound, step]
      rw [h]; show navBound w ≤ max 1 (navBound w) + 0; omega
  | videoEnded =>
      have h : navBound (step w .videoEnded) = navBound w := by simp [navBound, step]
      rw [h]; show navBound w ≤ max 1 (navBound w) + 0; omega
  | tapExit =>
      have hr : w.phase = .ready := by
        simp [enabledB, Bool.and_eq_true] at he
        exact he.2
      obtain ⟨hc, ht⟩ := hI (by simp [hr])
      have h : navBound (step w .tapExit) = 1 := by
        simp [navBound, step, goInvite, goInviteBody, hr, hc, ht]
      rw [h]; show (1 : ℕ) ≤ max 1 (navBound w) + 0; omega
  | tapExitStale =>
      have h : navBound (step w .tapExitStale) = navBound w + 1 := by
        simp [navBound, step]
        omega
      rw [h]; show navBound w + 1 ≤ max 1 (navBound w) + 1; omega
  | navFire t =>
      have hmem : t ∈ w.navTimers := by
        simp [enabledB, Bool.and_eq_true] at he
        exact he.1
      have hlen : (w.navTimers.erase t).length = w.navTimers.length - 1 :=
        List.length_erase_of_mem hmem
      have hpos : 0 < w.navTimers.length := List.length_pos_of_mem hmem
      have h : navBound (step w (.navFire t)) = navBound w := by
        simp [navBound, step, navTimerFire, hlen]
        omega
      rw [h]; show navBound w ≤ max 1 (navBound w) + 0; omega
  | elapse dt =>
      have h : navBound (step w (.elapse dt)) = navBound w := by simp [navBound, step]
      rw [h]; show navBound w ≤ max 1 (navBound w) + 0; omega
  | unmount =>
      have h : navBound (step w .unmount) = navBound w := by simp [navBound, step, unmountView]
      rw [h]; show navBound w ≤ max 1 (navBound w) + 0; omega

/-- Any property preserved by normally delivered enabled steps holds after
running a normal trace. -/
theorem run_preserves (P : World → Prop)
    (h : ∀ w a, P w → enabledB w a = true → normalAct w a = true → P (step w a)) :
    ∀ (acts : List Act) (w : World), P w → legalN w acts = true → P (run w acts) := by
  intro acts
  induction acts with
  | nil => intro w hw _; simpa [run] using hw
  | cons a as ih =>
      intro w hw hleg
      simp only [legalN, Bool.and_eq_true] at hleg
      obtain ⟨⟨hea, hna⟩, hrest⟩ := hleg
      exact ih (step w a) (h w a hw hea hna) hrest

/-- Along any normal trace, performed plus pending navigations stay below
one plus the number of stale exit taps taken. -/
theorem navBound_run (acts : List Act) : ∀ w : World,
    legalN w acts = true → QNav w →
    navBound (run w acts) ≤ max 1 (navBound w) + acts.countP isStaleTap := by
  induction acts with
  | nil =>
      intro w _ _
      simp only [run, List.countP_nil]
      omega
  | cons a as ih =>
      intro w hleg hq
      simp only [legalN, Bool.and_eq_true] at hleg
      obtain ⟨⟨hea, hna⟩, hrest⟩ := hleg
      have h1 := navBound_step_le w a hq hea hna
      have h2 := ih (step w a) hrest (qnav_step w a hq hea hna)
      have hcount : (a :: as).countP isStaleTap
          = as.countP isStaleTap + (if isStaleTap a then 1 else 0) := by
        simp [List.countP_cons]
      show navBound (run (step w a) as) ≤ _
      rw [hcount]
      rcases hsa : isStaleTap a <;> simp only [hsa, if_true, if_false] at h1 ⊢ <;> omega

@[simp] theorem startVideoResume_phase (w : World) :
    (startVideoResume w).phase = if w.mounted then .video else w.phase := by
  unfold startVideoResume; split <;> simp [*]

/-- Every normally delivered enabled event either leaves the phase alone
or advances it by exactly one position along the chain. -/
theorem chain_step (w : World) (a : Act)
    (he : enabledB w a = true) (hn : normalAct w a = true) :
    (step w a).phase = w.phase ∨ rank ((step w a).phase) = rank w.phase + 1 := by
  cases a with
  | tapEntry => left; simp [step]
  | musicSettled ok =>
      simp only [normalAct, Bool.and_eq_true, Bool.not_eq_true', beq_eq_false_iff_ne] at hn
      simp only [step, startVideoResume]
      split
      · cases hp : w.phase with
        | idle => right; simp [hp, rank]
        | video => left; simp [hp]
        | ready => exact absurd hp hn.1
        | leaving => exact absurd hp hn.2
      · left; simp
  | rafFire ok => left; simp [step]
  | retryFire t ok => left; simp [step]
  | tapRetry ok => left; simp [step]
  | videoEnded =>
      have hv : w.phase = .video := by
        simpa [normalAct] using hn
      right; simp [step, hv, rank]
  | tapExit =>
      have hr : w.phase = .ready := by
        simp only [enabledB, Bool.and_eq_true, beq_iff_eq] at he
        exact he.2
      right; simp [step, goInvite, goInviteBody, hr, rank]
  | tapExitStale =>
      have hl : w.phase = .leaving := by
        simpa [normalAct] using hn
      left; simp [step, hl]
  | navFire t => left; simp [step, navTimerFire]
  | elapse dt => left; rfl
  | unmount => left; simp [step, unmountView]

/-- Under normal delivery the leaving phase is terminal. -/
theorem leaving_terminal (w : World) (a : Act)
    (he : enabledB w a = true) (hn : normalAct w a = true)
    (hl : w.phase = .leaving) : (step w a).phase = .leaving := by
  cases a with
  | tapEntry => simp [step, hl]
  | musicSettled ok => simp [normalAct, hl] at hn
  | rafFire ok => simp [step, hl]
  | retryFire t ok => simp [step, hl]
  | tapRetry ok => simp [step, hl]
  | videoEnded => simp [normalAct, hl] at hn
  | tapExit => simp [enabledB, hl] at he
  | tapExitStale => simp [step]
  | navFire t => simp [step, navTimerFire, hl]
  | elapse dt => simpa [step] using hl
  | unmount => simp [step, unmountView, hl]

end Helpers

/-- Claim C1, counterexample.  The claim states that over the controller's
whole lifetime `navigate("/invite")` is invoked at most once and that a
double-invoked `requestExit` yields exactly one navigation call.  Two
legal traces refute it.  First, the plain double tap: the user walks the
nominal path to ready and taps the exit region twice in immediate
succession.  The first tap's `goInvite` runs `setPhase("leaving")` and
schedules a navigation; but `phase` inside the handler is a render-scoped
const that `setPhase` never updates, and the button — wrapped in
`AnimatePresence` with a 250 ms exit fade and sitting above the
`pointer-events:none` fade overlay — is still clickable, so the second
tap re-enters `goInvite` with the stale captured `phase = "ready"`, the
guard passes again, and a second navigation is scheduled; both timeouts
fire: `navCount = 2` on a trace that is legal and normal.  Second, a
trace with no stale tap at all: a double tap on the entry region leaves a
second `startVideo` continuation suspended on `await music.start()`;
after the controller reaches leaving the continuation resumes (stalled
audio download), runs `setPhase("video")` with no re-check and revives
the interface, and the user taps through to a second exit and a second
navigation. -/
theorem c1_nav_twice_cex :
    legalN (initWorld (.fin 3000))
      [.tapEntry, .musicSettled true, .rafFire true, .videoEnded, .tapExit,
       .tapExitStale, .elapse 650, .navFire 0, .navFire 0] = true
    ∧ (run (initWorld (.fin 3000))
      [.tapEntry, .musicSettled true, .rafFire true, .videoEnded, .tapExit,
       .tapExitStale, .elapse 650, .navFire 0, .navFire 0]).navCount = 2
    ∧ legal (initWorld (.fin 3000))
      [.tapEntry, .tapEntry, .musicSettled true, .rafFire true, .videoEnded,
       .tapExit, .musicSettled true, .tapRetry true, .videoEnded, .tapExit,
       .elapse 10000, .navFire 0, .navFire 0] = true
    ∧ (run (initWorld (.fin 3000))
      [.tapEntry, .tapEntry, .musicSettled true, .rafFire true, .videoEnded,
       .tapExit, .musicSettled true, .tapRetry true, .videoEnded, .tapExit,
       .elapse 10000, .navFire 0, .navFire 0]).navCount = 2 :=
  ⟨by decide, by decide, by decide, by decide⟩

/-- Claim C1, amended.  A navigation is only performed by the firing of a
timeout scheduled with delay `NAV_DELAY_MS = 650` once that delay has
elapsed.  Every step that schedules a navigation ends in leaving and
records the schedule moment, and is either a fresh exit tap from a
non-leaving phase (the transition into leaving) or a stale exit tap — a
tap landing on the exit button during the `EXIT_HIT_FADE_MS = 250`
`AnimatePresence` fade window that the fresh ready-phase exit tap opens,
whose retained closure makes the guard pass again and which therefore
schedules exactly one additional navigation each time.  Consequently, on
normal traces, performed plus pending navigations never exceed one plus
the number of stale fade-window taps; in particular, with no tap in the
fade window the navigation trigger fires at most once per controller
lifetime. -/
theorem c1_nav_once_amended :
    (∀ (d : JSNum) (acts : List Act), legalN (initWorld d) acts = true →
        (run (initWorld d) acts).navCount
          + (run (initWorld d) acts).navTimers.length
          ≤ 1 + acts.countP isStaleTap)
    ∧ (∀ (d : JSNum) (acts : List Act), legalN (initWorld d) acts = true →
        acts.countP isStaleTap = 0 →
        (run (initWorld d) acts).navCount
          + (run (initWorld d) acts).navTimers.length ≤ 1)
    ∧ (∀ (w : World) (a : Act), w.navTimers.length < (step w a).navTimers.length →
        (step w a).phase = .leaving ∧ (step w a).navTimers = w.now :: w.navTimers
          ∧ ((a = .tapExit ∧ w.phase ≠ .leaving) ∨ a = .tapExitStale))
    ∧ (∀ (w : World) (a : Act), (step w a).navCount ≠ w.navCount →
        ∃ t, a = .navFire t)
    ∧ (∀ (w : World) (t : ℕ), enabledB w (.navFire t) = true →
        t ∈ w.navTimers ∧ t + NAV_DELAY_MS ≤ w.now)
    ∧ NAV_DELAY_MS = 650
    ∧ EXIT_HIT_FADE_MS = 250
    ∧ (∀ w : World, enabledB w .tapExitStale = true →
        w.mounted = true ∧ ∃ u, w.exitFadeUntil = some u ∧ w.now ≤ u)
    ∧ (∀ w : World, w.phase = .ready →
        (step w .tapExit).exitFadeUntil = some (w.now + EXIT_HIT_FADE_MS))
    ∧ (∀ w : World, (goInviteStale w).navTimers = w.now :: w.navTimers
        ∧ (goInviteStale w).phase = .leaving) := by
  have key : ∀ (d : JSNum) (acts : List Act), legalN (initWorld d) acts = true →
      (run (initWorld d) acts).navCount + (run (initWorld d) acts).navTimers.length
        ≤ 1 + acts.countP isStaleTap := by
    intro d acts h
    have h2 := navBound_run acts (initWorld d) h (fun _ => ⟨rfl, rfl⟩)
    have h0 : navBound (initWorld d) = 0 := rfl
    rw [h0] at h2
    unfold navBound at h2
    omega
  refine ⟨key, ?_, ?_, ?_, ?_, rfl, rfl, ?_, ?_, ?_⟩
  · intro d acts h hc
    have := key d acts h
    omega
  · intro w a h
    cases a with
    | tapExit =>
        by_cases hl : w.phase = .leaving
        · rw [step_tapExit_navTimers] at h
          unfold goInvite goInviteBody at h
          rw [if_pos hl] at h
          exact absurd h (lt_irrefl _)
        · refine ⟨by simp, ?_, Or.inl ⟨rfl, hl⟩⟩
          rw [step_tapExit_navTimers]
          unfold goInvite goInviteBody
          rw [if_neg hl]
    | tapExitStale => exact ⟨by simp [step], by simp [step], Or.inr rfl⟩
    | navFire t =>
        exact absurd h (by
          simp only [step, navTimerFire]
          exact Nat.not_lt.mpr (List.Sublist.length_le (List.erase_sublist t w.navTimers)))
    | tapEntry => simp [step] at h
    | musicSettled ok => simp [step] at h
    | rafFire ok => simp [step] at h
    | retryFire t ok => simp [step] at h
    | tapRetry ok => simp [step] at h
    | videoEnded => simp [step] at h
    | elapse dt => simp [step] at h
    | unmount => simp [step, unmountView] at h
  · intro w a h
    cases a with
    | navFire t => exact ⟨t, rfl⟩
    | tapEntry => simp [step] at h
    | musicSettled ok => simp [step] at h
    | rafFire ok => simp [step] at h
    | retryFire t ok => simp [step] at h
    | tapRetry ok => simp [step] at h
    | videoEnded => simp [step] at h
    | tapExit => simp [step_tapExit_navCount] at h
    | tapExitStale => simp [step] at h
    | elapse dt => simp [step] at h
    | unmount => simp [step, unmountView] at h
  · intro w t h
    simp only [enabledB, Bool.and_eq_true, decide_eq_true_eq] at h
    exact h
  · intro w h
    simp only [enabledB, Bool.and_eq_true] at h
    refine ⟨h.1, ?_⟩
    rcases hu : w.exitFadeUntil with _ | u
    · rw [hu] at h
      exact absurd h.2 (by simp)
    · rw [hu] at h
      exact ⟨u, rfl, by simpa using h.2⟩
  · intro w hr
    simp [step, hr]
  · intro w
    exact ⟨goInviteStale_navTimers w, goInviteStale_phase w⟩

/-- Claim C1, witness for the amended theorem: the nominal trace (tap
entry, music settles, playback starts, video ends, one exit tap, 650 ms
pass, the timeout fires) is normal and legal, takes no stale tap, and the
amended theorem applied to it bounds the navigations by one. -/
theorem c1_witness :
    legalN (initWorld (.fin 3000))
      [.tapEntry, .musicSettled true, .rafFire true, .videoEnded, .tapExit,
       .elapse 650, .navFire 0] = true
    ∧ ([Act.tapEntry, .musicSettled true, .rafFire true, .videoEnded, .tapExit,
       .elapse 650, .navFire 0].countP isStaleTap = 0)
    ∧ (run (initWorld (.fin 3000))
      [.tapEntry, .musicSettled true, .rafFire true, .videoEnded, .tapExit,
       .elapse 650, .navFire 0]).navCount
        + (run (initWorld (.fin 3000))
      [.tapEntry, .musicSettled true, .rafFire true, .videoEnded, .tapExit,
       .elapse 650, .navFire 0]).navTimers.length ≤ 1 :=
  ⟨by decide, by decide, c1_nav_once_amended.2.1 (.fin 3000) _ (by decide) (by decide)⟩

/-- Claim C2, counterexample.  The claim states that `requestExit` applied
in any of idle, playing or leaving is a no-op.  But `goInvite` only
guards against the leaving phase: applied to the freshly mounted idle
world it transitions straight to leaving and schedules a navigation. -/
theorem c2_noop_cex :
    (initWorld (.fin 3000)).phase = .idle
    ∧ (goInvite (initWorld (.fin 3000))).phase = .leaving
    ∧ (goInvite (initWorld (.fin 3000))).navTimers.length = 1
    ∧ goInvite (initWorld (.fin 3000)) ≠ initWorld (.fin 3000) :=
  ⟨by decide, by decide, by decide, by decide⟩

/-- Claim C2, amended.  `requestStart` (`startVideo`) really is a
function-level no-op in playing, ready and leaving: its first statement
is the idle guard, so the state is unchanged and no side effect (not even
the music call) fires.  `requestExit` (`goInvite`), however, is a no-op
only in leaving; in idle and playing the function itself transitions
straight to leaving — the no-op behaviour there holds only at the UI
level, because the exit hit region is rendered solely in the ready phase,
so the handler cannot be invoked from those states through the view. -/
theorem c2_noop_amended :
    (∀ w : World, startVideoBegin { w with phase := .video } = { w with phase := .video })
    ∧ (∀ w : World, startVideoBegin { w with phase := .ready } = { w with phase := .ready })
    ∧ (∀ w : World, startVideoBegin { w with phase := .leaving } = { w with phase := .leaving })
    ∧ (∀ w : World, goInvite { w with phase := .leaving } = { w with phase := .leaving })
    ∧ (∀ w : World, enabledB { w with phase := .idle } .tapExit = false)
    ∧ (∀ w : World, enabledB { w with phase := .video } .tapExit = false)
    ∧ (∀ w : World, (goInvite { w with phase := .idle }).phase = .leaving)
    ∧ (∀ w : World, (goInvite { w with phase := .video }).phase = .leaving) := by
  refine ⟨?_, ?_, ?_, ?_, ?_, ?_, ?_, ?_⟩ <;> intro w <;>
    simp [startVideoBegin, goInvite, goInviteBody, enabledB]

/-- Claim C3, counterexample.  The claim states that in every reachable
execution, for any interleaving of the events, no transition skips a
state and none reverses.  Two legal traces refute it.  First trace (a
normal-length asset): after a double tap on the entry region leaves a
second `startVideo` continuation suspended, the controller reaches
leaving; when that continuation finally resumes it runs
`setPhase("video")` unconditionally — leaving to video, a reversal.
Second trace (an asset shorter than the 120 ms retry backoff): the first
`play()` rejects, scheduling the retry; the user taps the overlay, the
video plays to its end, the user exits; then the retry timer fires, plays
the video again from its near-end position, and the unguarded
`onVideoEnded` runs `setPhase("ready")` — leaving to ready, a reversal. -/
theorem c3_chain_cex :
    legal (initWorld (.fin 3000))
      [.tapEntry, .tapEntry, .musicSettled true, .rafFire true, .videoEnded,
       .tapExit, .musicSettled true] = true
    ∧ (run (initWorld (.fin 3000))
      [.tapEntry, .tapEntry, .musicSettled true, .rafFire true, .videoEnded,
       .tapExit]).phase = .leaving
    ∧ (run (initWorld (.fin 3000))
      [.tapEntry, .tapEntry, .musicSettled true, .rafFire true, .videoEnded,
       .tapExit, .musicSettled true]).phase = .video
    ∧ legal (initWorld (.fin 10))
      [.tapEntry, .musicSettled true, .rafFire false, .tapRetry true, .videoEnded,
       .tapExit, .elapse 120, .retryFire 0 true, .videoEnded] = true
    ∧ (run (initWorld (.fin 10))
      [.tapEntry, .musicSettled true, .rafFire false, .tapRetry true, .videoEnded,
       .tapExit, .elapse 120, .retryFire 0 true]).phase = .leaving
    ∧ (run (initWorld (.fin 10))
      [.tapEntry, .musicSettled true, .rafFire false, .tapRetry true, .videoEnded,
       .tapExit, .elapse 120, .retryFire 0 true, .videoEnded]).phase = .ready :=
  ⟨by decide, by decide, by decide, by decide, by decide, by decide⟩

/-- Claim C3, amended.  Exactly one phase is active at any time (the
state is a single value of the four-constructor enumeration `Phase`),
and under the `normalAct` delivery discipline — the `ended` event only in
the video phase, no `startVideo` continuation resuming in ready or
leaving, and stale exit taps only while leaving (which the first two
conditions already guarantee along any normal trace, since the fade
window only opens on the ready → leaving transition) — every enabled
event either leaves the phase unchanged or advances it by exactly one
position along idle → video (Playing) → ready → leaving, and leaving is
terminal; so no transition skips a state and none reverses.  In
particular a stale exit tap while leaving re-runs `setPhase("leaving")`
and leaves the phase where it was. -/
theorem c3_chain_amended :
    (∀ (w : World) (a : Act), enabledB w a = true → normalAct w a = true →
        (step w a).phase = w.phase ∨ rank ((step w a).phase) = rank w.phase + 1)
    ∧ (∀ (w : World) (a : Act), enabledB w a = true → normalAct w a = true →
        w.phase = .leaving → (step w a).phase = .leaving)
    ∧ (∀ p : Phase, p = .idle ∨ p = .video ∨ p = .ready ∨ p = .leaving)
    ∧ rank .idle = 0 ∧ rank .video = 1 ∧ rank .ready = 2 ∧ rank .leaving = 3 := by
  refine ⟨chain_step, leaving_terminal, ?_, rfl, rfl, rfl, rfl⟩
  intro p
  cases p <;> simp

/-- Claim C3, witness for the amended theorem: the entry tap on the
freshly mounted world is enabled and normal, and the amended theorem
yields the chain property for that step. -/
theorem c3_witness :
    (step (initWorld (.fin 3000)) .tapEntry).phase = (initWorld (.fin 3000)).phase
      ∨ rank ((step (initWorld (.fin 3000)) .tapEntry).phase)
          = rank (initWorld (.fin 3000)).phase + 1 :=
  c3_chain_amended.1 (initWorld (.fin 3000)) .tapEntry (by decide) (by decide)

/-- Claim C4, counterexample.  The claim states that from idle the
controller transitions to playing before the outcome of any asynchronous
operation, including the music collaborator's `start()`, is known.  In
the source, `setPhase("video")` runs only after `await music.start()` has
settled: in the effect timeline the settling of the music promise
strictly precedes the phase transition, and not the other way round. -/
theorem c4_sync_cex :
    (startVideoTimeline true true true).findIdx PEvent.isMusicOutcome
      < (startVideoTimeline true true true).findIdx PEvent.isSetPhasePlaying
    ∧ ¬((startVideoTimeline true true true).findIdx PEvent.isSetPhasePlaying
      < (startVideoTimeline true true true).findIdx PEvent.isMusicOutcome) :=
  ⟨by decide, by decide⟩

/-- Claim C4, amended.  For every combination of asynchronous outcomes,
the transition to playing (`setPhase("video")`) happens before the
asset's `play()` is even issued — so before its outcome is known — but
only after the awaited `music.start()` has settled: the transition is
not synchronous with the `requestStart` call; it is deferred past the
music start attempt, whose outcome (swallowed either way) is already
known when the phase changes. -/
theorem c4_sync_amended :
    ∀ m f r : Bool,
      (startVideoTimeline m f r).findIdx PEvent.isSetPhasePlaying
        < (startVideoTimeline m f r).findIdx PEvent.isPlayCall
      ∧ (startVideoTimeline m f r).findIdx PEvent.isMusicOutcome
        < (startVideoTimeline m f r).findIdx PEvent.isSetPhasePlaying := by
  decide

/-- Claim C6, confirmed.  When the first `play()` rejects, `startVideo`
schedules exactly one retry, with the fixed 120 ms backoff (on the order
of 100 ms as the claim puts it), and issues exactly two play attempts in
total; when the first `play()` succeeds no retry is ever scheduled.  A
failure of the retried `play()` is swallowed: firing the retry timer with
a rejected `play()` changes nothing in the world beyond consuming the
timer — in particular the phase (Playing) is untouched and no error is
recorded anywhere — and the playback machinery (animation-frame callback
and retry callback) never changes the phase at all. -/
theorem c6_retry_once :
    RETRY_DELAY_MS = 120
    ∧ (∀ m r : Bool, (startVideoTimeline m false r).countP PEvent.isRetrySched = 1)
    ∧ (∀ m r : Bool, (startVideoTimeline m false r).countP PEvent.isPlayAttempt = 2)
    ∧ (∀ m r : Bool, PEvent.retrySched RETRY_DELAY_MS ∈ startVideoTimeline m false r)
    ∧ (∀ m r : Bool, (startVideoTimeline m true r).countP PEvent.isRetrySched = 0)
    ∧ (∀ (w : World) (t : ℕ),
        step w (.retryFire t false) = { w with retryTimers := w.retryTimers.erase t })
    ∧ (∀ (w : World) (t : ℕ) (b : Bool), (step w (.retryFire t b)).phase = w.phase)
    ∧ (∀ (w : World) (b : Bool), (step w (.rafFire b)).phase = w.phase) := by
  refine ⟨rfl, by decide, by decide, by decide, by decide, ?_, ?_, ?_⟩
  · intro w t
    show retryPlayback t false w = _
    unfold retryPlayback
    cases hv : w.video <;> simp [hv]
  · intro w t b
    simp [step]
  · intro w b
    simp [step]

/-- Claim C7, confirmed.  Whenever `onVideoEnded` runs with the video
element present, it pauses the element, seeks to
`safeEnd = Math.max(0, (duration || 0) - 0.04)` exactly when that value
is finite and positive (leaving `currentTime` untouched otherwise), and
transitions the phase to ready.  The second conjunct spells out that on a
finite duration `safeEnd` is the clamped `duration - 0.04` (times are in
units of 1/100 s, so `SEEK_EPS = 4` stands for 0.04 s). -/
theorem c7_freeze_frame :
    (∀ (w : World) (v : VideoEl),
        (onVideoEnded { w with video := some v }).phase = .ready
        ∧ (onVideoEnded { w with video := some v }).video =
            some { v with playing := false,
                          currentTime :=
                            if (safeEnd v.duration).isFinite && (safeEnd v.duration).isPos
                            then safeEnd v.duration else v.currentTime })
    ∧ (∀ k : ℤ, safeEnd (.fin k) = .fin (if k - SEEK_EPS < 0 then 0 else k - SEEK_EPS)) := by
  constructor
  · intro w v
    constructor
    · simp
    · show (onVideoEnded { w with video := some v }).video = _
      unfold onVideoEnded
      simp only []
      split
      · rfl
      · rfl
  · intro k
    simp [safeEnd, JSNum.orZero, JSNum.subC, JSNum.max0]

/-- Claim C8, confirmed.  The set of active hit regions is the pure
function `activeRegions` of the phase, read off the render conditionals:
idle exposes only the entry region, video (Playing) only the retry
overlay, ready only the exit region, and leaving exposes nothing. -/
theorem c8_active_regions :
    activeRegions .idle = [Region.entry]
    ∧ activeRegions .video = [Region.retryOverlay]
    ∧ activeRegions .ready = [Region.exitHit]
    ∧ activeRegions .leaving = [] := by
  decide

/-- Claim C10, confirmed.  If the element handle is null when
`onVideoEnded` fires, the controller still transitions to ready, touching
nothing else.  When the handle is present but the duration is `NaN`,
`Infinity`, or finite but at most 0.04 s (`SEEK_EPS - j` for a natural
`j`, in 1/100 s units), no seek is performed — `currentTime` is
unchanged — yet the element is still paused and the transition to ready
still occurs.  Moreover the computed seek target is never negative: on
any finite duration `safeEnd` is a finite non-negative value, on `NaN` it
is zero, and on `Infinity` it is non-finite (so never used). -/
theorem c10_ended_safe :
    (∀ w : World, onVideoEnded { w with video := none }
        = { w with video := none, phase := .ready })
    ∧ (∀ (w : World) (c : JSNum) (p : Bool),
        onVideoEnded { w with video := some ⟨.nan, c, p⟩ }
          = { w with video := some ⟨.nan, c, false⟩, phase := .ready })
    ∧ (∀ (w : World) (c : JSNum) (p : Bool),
        onVideoEnded { w with video := some ⟨.inf, c, p⟩ }
          = { w with video := some ⟨.inf, c, false⟩, phase := .ready })
    ∧ (∀ (w : World) (c : JSNum) (p : Bool) (j : ℕ),
        onVideoEnded { w with video := some ⟨.fin (SEEK_EPS - (j : ℤ)), c, p⟩ }
          = { w with video := some ⟨.fin (SEEK_EPS - (j : ℤ)), c, false⟩, phase := .ready })
    ∧ (∀ k : ℤ, ∃ n : ℤ, safeEnd (.fin k) = .fin n ∧ 0 ≤ n)
    ∧ safeEnd .nan = .fin 0
    ∧ safeEnd .inf = .inf := by
  refine ⟨?_, ?_, ?_, ?_, ?_, by decide, by decide⟩
  · intro w
    rfl
  · intro w c p
    show onVideoEnded _ = _
    unfold onVideoEnded
    simp [safeEnd, JSNum.orZero, JSNum.subC, JSNum.max0, JSNum.isFinite, JSNum.isPos, SEEK_EPS]
  · intro w c p
    show onVideoEnded _ = _
    unfold onVideoEnded
    simp [safeEnd, JSNum.orZero, JSNum.subC, JSNum.max0, JSNum.isFinite, JSNum.isPos]
  · intro w c p j
    have h : ((safeEnd (JSNum.fin (SEEK_EPS - (j : ℤ)))).isFinite
        && (safeEnd (JSNum.fin (SEEK_EPS - (j : ℤ)))).isPos) = false := by
      simp only [safeEnd, SEEK_EPS, JSNum.orZero, JSNum.subC, JSNum.max0]
      split
      · simp [JSNum.isFinite, JSNum.isPos]
      · rename_i hc
        simp only [JSNum.isFinite, JSNum.isPos, Bool.true_and, decide_eq_false_iff_not]
        omega
    simp [onVideoEnded, h]
  · intro k
    refine ⟨if k - SEEK_EPS < 0 then 0 else k - SEEK_EPS, ?_, ?_⟩
    · simp [safeEnd, JSNum.orZero, JSNum.subC, JSNum.max0]
    · split <;> omega

/-- Claim C5, evidence of the code bug.  The claim says both timers are
cancelled on teardown and `navigateTo` is never called once the view has
been discarded.  The source stores neither timeout id and contains no
`clearTimeout` at all, so teardown leaves both timer lists untouched and
the navigation callback — which checks nothing — still runs.  The trace
below is legal and even normal: the user walks the nominal path to
leaving, the view unmounts 650 ms before the exit timer fires, and the
timer nonetheless fires and performs the navigation (`navCount = 1` with
`mounted = false`).  The last conjunct records that a navigation timer's
firing condition does not depend on the mounted flag in any world. -/
theorem c5_leaked_timer :
    legalN (initWorld (.fin 3000))
      [.tapEntry, .musicSettled true, .rafFire true, .videoEnded, .tapExit,
       .unmount, .elapse 650, .navFire 0] = true
    ∧ (run (initWorld (.fin 3000))
      [.tapEntry, .musicSettled true, .rafFire true, .videoEnded, .tapExit,
       .unmount, .elapse 650, .navFire 0]).mounted = false
    ∧ (run (initWorld (.fin 3000))
      [.tapEntry, .musicSettled true, .rafFire true, .videoEnded, .tapExit,
       .unmount, .elapse 650, .navFire 0]).navCount = 1
    ∧ (∀ w : World, (step w .unmount).navTimers = w.navTimers)
    ∧ (∀ w : World, (step w .unmount).retryTimers = w.retryTimers)
    ∧ (∀ (w : World) (t : ℕ),
        enabledB w (.navFire t) = enabledB { w with mounted := false } (.navFire t)) := by
  refine ⟨by decide, by decide, by decide, ?_, ?_, ?_⟩
  · intro w; rfl
  · intro w; rfl
  · intro w t; rfl

/-- Claim C9, counterexample.  The claim states that `music.start()` is
invoked at most once per controller lifetime because the idle
precondition blocks re-entry.  It does not: the guard is checked
synchronously at the top of `startVideo`, but the phase only changes
after `await music.start()` resumes, so a double tap on the entry region
while the first `music.start()` is still pending passes the guard twice
and invokes `music.start()` twice.  The two-tap trace is legal and even
normal, and ends with two music calls. -/
theorem c9_music_twice_cex :
    legalN (initWorld (.fin 3000)) [.tapEntry, .tapEntry] = true
    ∧ (run (initWorld (.fin 3000)) [.tapEntry, .tapEntry]).musicCalls = 2 :=
  ⟨by decide, by decide⟩

/-- Claim C9, amended.  `music.start()` is invoked exactly once per
`requestStart` accepted while idle, and never again once the controller
has left idle: no event increases the music-call counter from the video,
ready or leaving phases, and no event ever brings the phase back to idle
— so the only window for repeated invocations is several entry taps
landing before the first continuation resumes, as the counterexample
shows.  The swallowing part of the claim holds: the resumed continuation
is the same whatever the outcome of `music.start()` was (the step
function does not even inspect it), and on a mounted view the transition
to playing happens regardless, so a music rejection never blocks or
fails the portal transition and is never surfaced. -/
theorem c9_music_once_amended :
    (∀ (w : World) (b : Bool), step w (.musicSettled b) = step w (.musicSettled (!b)))
    ∧ (∀ w : World, (startVideoResume { w with mounted := true }).phase = .video)
    ∧ (∀ w : World, (startVideoBegin { w with phase := .idle }).musicCalls
        = w.musicCalls + 1)
    ∧ (∀ (w : World) (a : Act),
        (step { w with phase := .video } a).musicCalls = w.musicCalls)
    ∧ (∀ (w : World) (a : Act),
        (step { w with phase := .ready } a).musicCalls = w.musicCalls)
    ∧ (∀ (w : World) (a : Act),
        (step { w with phase := .leaving } a).musicCalls = w.musicCalls)
    ∧ (∀ (w : World) (a : Act), (step { w with phase := .video } a).phase ≠ .idle)
    ∧ (∀ (w : World) (a : Act), (step { w with phase := .ready } a).phase ≠ .idle)
    ∧ (∀ (w : World) (a : Act), (step { w with phase := .leaving } a).phase ≠ .idle) := by
  refine ⟨?_, ?_, ?_, ?_, ?_, ?_, ?_, ?_, ?_⟩
  · intro w b; rfl
  · intro w; simp [startVideoResume]
  · intro w; simp [startVideoBegin]
  · intro w a
    cases a <;> simp [step, startVideoBegin, navTimerFire, unmountView]
  · intro w a
    cases a <;> simp [step, startVideoBegin, navTimerFire, unmountView]
  · intro w a
    cases a <;> simp [step, startVideoBegin, navTimerFire, unmountView]
  · intro w a
    cases a <;> simp [step, startVideoBegin, navTimerFire, unmountView]
  · intro w a
    cases a <;>
      first
        | (simp [step, startVideoBegin, navTimerFire, unmountView]; done)
        | (simp only [step, startVideoResume_phase]; split <;> simp)
  · intro w a
    cases a <;>
      first
        | (simp [step, startVideoBegin, navTimerFire, unmountView]; done)
        | (simp only [step, startVideoResume_phase]; split <;> simp)

end Portal
